import Mathlib

set_option linter.unusedVariables false

/-!
Verification of the XYFORA-APIs access-guard and product CRUD layer.

Strings from the TypeScript source are modelled as `List Char` so that the
JavaScript string operations (`trim`, `replace`, `split`, regex tests) can be
embedded precisely.  Each route handler becomes a pure Lean function from its
request data and the current record-store contents to a response, the updated
store, and the list of product ids it looked up in the store.  External
collaborators (the JWT library, password hashing, database id generation) are
passed in as oracle parameters, matching the narrow interfaces the source
calls them through.
-/

namespace Xyfora

abbrev Str := List Char

/-- Code points removed by the JavaScript `String.prototype.trim`:
WhiteSpace and LineTerminator code points. -/
def jsSpaceCodes : List Nat :=
  [9, 10, 11, 12, 13, 32, 160, 5760,
   8192, 8193, 8194, 8195, 8196, 8197, 8198, 8199, 8200, 8201, 8202,
   8232, 8233, 8239, 8287, 12288, 65279]

def isJsSpace (c : Char) : Bool := jsSpaceCodes.contains c.toNat

/-- A character matched by the source regex character class `[0-9a-fA-F]`. -/
def isHexChar (c : Char) : Bool :=
  (48 ≤ c.toNat && c.toNat ≤ 57) ||
  (97 ≤ c.toNat && c.toNat ≤ 102) ||
  (65 ≤ c.toNat && c.toNat ≤ 70)

/-- The ASCII double-quote character, code point 34. -/
def isDq (c : Char) : Bool := c.toNat == 34

/-- JavaScript `s.trim()`: drop leading and trailing whitespace. -/
def jsTrim (s : Str) : Str :=
  ((s.dropWhile isJsSpace).reverse.dropWhile isJsSpace).reverse

/-- The `replace` call of `sanitizeId`: the regex `[""]` is the character
class containing (twice) the ASCII double quote, applied globally, so every
double-quote character is removed. -/
def removeDoubleQuotes (s : Str) : Str := s.filter (fun c => !(isDq c))

/-- `src/lib/auth.ts` line 33:
`const sanitizeId = (id) => id.trim().replace(/[""]/g, "")`. -/
def sanitizeId (s : Str) : Str := removeDoubleQuotes (jsTrim s)

/-- `src/lib/auth.ts` line 35:
`const isValidMongoId = (id) => /^[0-9a-fA-F]{24}$/.test(id)`. -/
def isValidMongoId (s : Str) : Bool := s.length == 24 && s.all isHexChar

/-- Truthiness of an optional string in a JavaScript `if`: present and
non-empty. -/
def truthyStr (o : Option Str) : Bool :=
  match o with
  | some t => !t.isEmpty
  | none => false

/-- The scheme marker checked by `getCurrentUserId`. -/
def bearerMarker : Str := ("Bearer ").toList

/-- JavaScript `header.split(" ")[1]`: the second space-separated field. -/
def secondField (s : Str) : Str :=
  match s.splitOn (Char.ofNat 32) with
  | _ :: t :: _ => t
  | _ => []

/-- `src/lib/auth.ts` lines 4-24.  `verify` is the external JWT
verification oracle; a `none` result models `verifyToken` throwing, which the
source catches and maps to `null`. -/
def getCurrentUserId (verify : Str → Option Str) (authHeader : Option Str) :
    Option Str :=
  match authHeader with
  | none => none
  | some h =>
    if List.isPrefixOf bearerMarker h then verify (secondField h) else none

/-- A product record as stored (mongoose `Product` schema / prisma model):
id, title, numeric price, owning user id, and the two timestamps. -/
structure Product where
  id : Str
  title : Str
  price : Int
  author : Str
  createdAt : Nat
  updatedAt : Nat
deriving DecidableEq, Repr

/-- `Product.findById` / `prisma.product.findUnique`: first record whose id
matches. -/
def findById (store : List Product) (i : Str) : Option Product :=
  store.find? (fun p => p.id == i)

/-- Saving a fetched-and-mutated document (`existing.save()`) or
`prisma.product.update`: the record with the given id is replaced. -/
def replaceById (store : List Product) (i : Str) (p : Product) :
    List Product :=
  store.map (fun q => if q.id == i then p else q)

/-- `Product.findByIdAndDelete` / `prisma.product.delete`: remove the record
with the given id. -/
def deleteById (store : List Product) (i : Str) : List Product :=
  store.eraseP (fun q => q.id == i)

/-- Observable outcome of one product route handler: HTTP status, store
contents after the request, and the ids of the product lookups performed
against the store. -/
structure Rsp where
  status : Nat
  store : List Product
  lookups : List Str
deriving DecidableEq, Repr

/-! ### Route handlers backed by the mongoose store
(`src/app/api/products/[id]/route.ts`). -/

namespace MongoRoute

/-- `GET /products/{id}` (mongoose).  The handler receives the request but
never reads its authorization header: it sanitizes and validates the id,
looks the product up, and answers 404 or 200. -/
def GET (authHeader : Option Str) (store : List Product) (rawId : Str) :
    Rsp :=
  let i := sanitizeId rawId
  if !(isValidMongoId i) then ⟨400, store, []⟩
  else
    match findById store i with
    | none => ⟨404, store, [i]⟩
    | some _ => ⟨200, store, [i]⟩

/-- `PUT /products/{id}` (mongoose): identity, id validation, body check,
existence, ownership, then mutate `title`/`price` and save (which refreshes
`updatedAt` and triggers a second lookup for the response). -/
def PUT (verify : Str → Option Str) (authHeader : Option Str) (now : Nat)
    (store : List Product) (rawId : Str) (title : Option Str)
    (price : Option Int) : Rsp :=
  let i := sanitizeId rawId
  match getCurrentUserId verify authHeader with
  | none => ⟨401, store, []⟩
  | some userId =>
    if !(isValidMongoId i) then ⟨400, store, []⟩
    else if !(truthyStr title) && price.isNone then ⟨400, store, []⟩
    else
      match findById store i with
      | none => ⟨404, store, [i]⟩
      | some existing =>
        if existing.author ≠ userId then ⟨403, store, [i]⟩
        else
          let updated : Product :=
            { existing with
              title := match title with
                | some t => if !t.isEmpty then jsTrim t else existing.title
                | none => existing.title
              price := match price with
                | some v => v
                | none => existing.price
              updatedAt := now }
          ⟨200, replaceById store i updated, [i, i]⟩

/-- `DELETE /products/{id}` (mongoose): identity, id validation, existence,
ownership, then `findByIdAndDelete` and `200` with a message body. -/
def DELETE (verify : Str → Option Str) (authHeader : Option Str)
    (store : List Product) (rawId : Str) : Rsp :=
  let i := sanitizeId rawId
  match getCurrentUserId verify authHeader with
  | none => ⟨401, store, []⟩
  | some userId =>
    if !(isValidMongoId i) then ⟨400, store, []⟩
    else
      match findById store i with
      | none => ⟨404, store, [i]⟩
      | some existing =>
        if existing.author ≠ userId then ⟨403, store, [i]⟩
        else ⟨200, deleteById store i, [i]⟩

end MongoRoute

/-! ### Route handlers backed by the prisma store (`src/unnamed/part_003`). -/

namespace PrismaRoute

/-- `GET /products/{id}` (prisma).  Same shape as the mongoose GET: the
authorization header is never consulted. -/
def GET (authHeader : Option Str) (store : List Product) (rawId : Str) :
    Rsp :=
  let i := sanitizeId rawId
  if !(isValidMongoId i) then ⟨400, store, []⟩
  else
    match findById store i with
    | none => ⟨404, store, [i]⟩
    | some _ => ⟨200, store, [i]⟩

/-- `PUT /products/{id}` (prisma): identity, id validation, body check,
existence, ownership, then `prisma.product.update` with
`title: title?.trim()` and the numeric price. -/
def PUT (verify : Str → Option Str) (authHeader : Option Str) (now : Nat)
    (store : List Product) (rawId : Str) (title : Option Str)
    (price : Option Int) : Rsp :=
  let i := sanitizeId rawId
  match getCurrentUserId verify authHeader with
  | none => ⟨401, store, []⟩
  | some userId =>
    if !(isValidMongoId i) then ⟨400, store, []⟩
    else if !(truthyStr title) && price.isNone then ⟨400, store, []⟩
    else
      match findById store i with
      | none => ⟨404, store, [i]⟩
      | some existing =>
        if existing.author ≠ userId then ⟨403, store, [i]⟩
        else
          let updated : Product :=
            { existing with
              title := match title with
                | some t => jsTrim t
                | none => existing.title
              price := match price with
                | some v => v
                | none => existing.price
              updatedAt := now }
          ⟨200, replaceById store i updated, [i]⟩

/-- `DELETE /products/{id}` (prisma): identity, id validation, existence,
ownership, then `prisma.product.delete` and an empty `204` response. -/
def DELETE (verify : Str → Option Str) (authHeader : Option Str)
    (store : List Product) (rawId : Str) : Rsp :=
  let i := sanitizeId rawId
  match getCurrentUserId verify authHeader with
  | none => ⟨401, store, []⟩
  | some userId =>
    if !(isValidMongoId i) then ⟨400, store, []⟩
    else
      match findById store i with
      | none => ⟨404, store, [i]⟩
      | some existing =>
        if existing.author ≠ userId then ⟨403, store, [i]⟩
        else ⟨204, deleteById store i, [i]⟩

end PrismaRoute

/-! ### Product creation (`src/app/api/products/route.ts`, prisma POST). -/

/-- Outcome of `POST /products`: status and the product store afterwards. -/
structure CreateRsp where
  status : Nat
  store : List Product
deriving DecidableEq, Repr

/-- `POST /products`: identity, presence check on `title`/`price`
(`!title || price === undefined`), then create with `price: Number(price)`
and `authorId` the authenticated identity.  `newId` is the id the store
generates for the record. -/
def productsCreate (verify : Str → Option Str) (authHeader : Option Str)
    (now : Nat) (newId : Str) (store : List Product) (title : Option Str)
    (price : Option Int) : CreateRsp :=
  match getCurrentUserId verify authHeader with
  | none => ⟨401, store⟩
  | some userId =>
    if !(truthyStr title) || price.isNone then ⟨400, store⟩
    else
      match title, price with
      | some t, some v =>
        ⟨201, store ++ [⟨newId, t, v, userId, now, now⟩]⟩
      | _, _ => ⟨400, store⟩

/-! ### User registration (`src/app/api/auth/register/route.ts`). -/

structure User where
  id : Str
  fullname : Str
  email : Str
  password : Str
deriving DecidableEq, Repr

/-- Body of a successful registration response:
`{...user, token: signToken(user.id)}` with the password-free projection of
the created user. -/
structure RegisterBody where
  id : Str
  fullname : Str
  email : Str
  token : Str
deriving DecidableEq, Repr

structure RegisterRsp where
  status : Nat
  users : List User
  body : Option RegisterBody
deriving DecidableEq, Repr

/-- `POST /auth/register`: field presence check, duplicate-email check,
hash the password, create the user, and answer with the user projection and
a signed token.  The success response is built by `NextResponse.json`
without a `status` option, so its status is the default `200`.
`hash` and `sign` are the external bcrypt and JWT oracles; `newId` is the
store-generated user id. -/
def register (hash sign : Str → Str) (newId : Str) (users : List User)
    (fullname email password : Option Str) : RegisterRsp :=
  match fullname, email, password with
  | some f, some e, some p =>
    if f.isEmpty || e.isEmpty || p.isEmpty then ⟨400, users, none⟩
    else
      match users.find? (fun u => u.email == e) with
      | some _ => ⟨400, users, none⟩
      | none =>
        ⟨200, users ++ [⟨newId, f, e, hash p⟩],
          some ⟨newId, f, e, sign newId⟩⟩
  | _, _, _ => ⟨400, users, none⟩

/-! ### Token service.

Modelled from the spec: the `jsonwebtoken` primitives behind
`src/lib/jwt.ts` are an external collaborator (§6 Token Service contract):
`sign(userId)` embeds the user id and a 7-day expiry under the secret, and
`verify(token)` yields the embedded id exactly when the signature matches
the secret and the token has not expired. -/

structure Token where
  userId : Str
  exp : Nat
  key : Nat
deriving DecidableEq, Repr

def sevenDays : Nat := 604800

/-- `signToken` (`src/lib/jwt.ts` lines 5-9):
`jwt.sign({id}, JWT_SECRET, {expiresIn: "7d"})`. -/
def signToken (key : Nat) (now : Nat) (uid : Str) : Token :=
  ⟨uid, now + sevenDays, key⟩

/-- `verifyToken` (`src/lib/jwt.ts` lines 11-14): succeeds with the embedded
id iff the signature verifies under the secret and the expiry has not
passed. -/
def verifyToken (key : Nat) (now : Nat) (t : Token) : Option Str :=
  if t.key == key && now < t.exp then some t.userId else none

/-! ### Concrete fixtures used by witnesses and counterexamples. -/

/-- A well-formed 24-hex-character product id. -/
def pid : Str := ("64f3b2c4e1234567890abcde").toList

def uid1 : Str := ("64f3b2c4e1234567890abc01").toList

def uid2 : Str := ("64f3b2c4e1234567890abc02").toList

/-- A concrete verification oracle: the token `tok1` belongs to `uid1`,
everything else fails verification. -/
def verify1 : Str → Option Str :=
  fun t => if t = ("tok1").toList then some uid1 else none

/-- A concrete authorization header carrying `tok1`. -/
def hdr1 : Option Str := some (("Bearer tok1").toList)

/-- A product owned by `uid1`. -/
def prod1 : Product := ⟨pid, ("M").toList, 999, uid1, 5, 5⟩

/-- A product with the same id but owned by `uid2`. -/
def prod2 : Product := ⟨pid, ("M").toList, 999, uid2, 5, 5⟩

/-! ### Character and list helper lemmas for the sanitizer. -/

theorem isHexChar_not_space {c : Char} (h : isHexChar c = true) :
    isJsSpace c = false := by
  simp only [isHexChar, Bool.or_eq_true, Bool.and_eq_true,
    decide_eq_true_eq] at h
  simp [isJsSpace, jsSpaceCodes, List.contains_iff_exists_mem_beq]
  omega

theorem isHexChar_not_dq {c : Char} (h : isHexChar c = true) :
    isDq c = false := by
  simp only [isHexChar, Bool.or_eq_true, Bool.and_eq_true,
    decide_eq_true_eq] at h
  simp [isDq]
  omega

theorem isDq_not_space {c : Char} (h : isDq c = true) :
    isJsSpace c = false := by
  simp only [isDq, beq_iff_eq] at h
  simp [isJsSpace, jsSpaceCodes, List.contains_iff_exists_mem_beq]
  omega

theorem dropWhile_append_all (p : Char → Bool) (l rest : Str)
    (h : ∀ c ∈ l, p c = true) :
    (l ++ rest).dropWhile p = rest.dropWhile p := by
  induction l with
  | nil => rfl
  | cons a l ih =>
    have ha : p a = true := h a (by simp)
    simp only [List.cons_append, List.dropWhile_cons, ha, if_true]
    exact ih (fun c hc => h c (by simp [hc]))

theorem dropWhile_append_keep (p : Char → Bool) (m rest : Str)
    (hne : m ≠ []) (hm : ∀ c ∈ m, p c = false) :
    (m ++ rest).dropWhile p = m ++ rest := by
  cases m with
  | nil => exact absurd rfl hne
  | cons a l =>
    have ha : p a = false := hm a (by simp)
    simp [List.dropWhile_cons, ha]

theorem dropWhile_keep (p : Char → Bool) (m : Str) (hne : m ≠ [])
    (hm : ∀ c ∈ m, p c = false) : m.dropWhile p = m := by
  have h := dropWhile_append_keep p m [] hne hm
  simpa using h

/-- Trimming a string that is non-space material surrounded by whitespace
yields exactly the material. -/
theorem jsTrim_sandwich (ws1 m ws2 : Str)
    (h1 : ∀ c ∈ ws1, isJsSpace c = true)
    (h2 : ∀ c ∈ ws2, isJsSpace c = true)
    (hne : m ≠ []) (hm : ∀ c ∈ m, isJsSpace c = false) :
    jsTrim (ws1 ++ m ++ ws2) = m := by
  have hrevne : m.reverse ≠ [] := by simpa using hne
  unfold jsTrim
  rw [List.append_assoc, dropWhile_append_all _ _ _ h1,
    dropWhile_append_keep _ _ _ hne hm,
    List.reverse_append,
    dropWhile_append_all _ _ _ (fun c hc => h2 c (List.mem_reverse.mp hc)),
    dropWhile_keep _ _ hrevne (fun c hc => hm c (List.mem_reverse.mp hc)),
    List.reverse_reverse]

/-- `sanitizeId` written out: remove double quotes after trimming. -/
theorem sanitizeId_eq (s : Str) :
    sanitizeId s = removeDoubleQuotes (jsTrim s) := rfl

/-- Everything surviving `sanitizeId` is a non-double-quote character. -/
theorem mem_sanitizeId_not_dq (s : Str) :
    ∀ c ∈ sanitizeId s, (!(isDq c)) = true := by
  intro c hc
  rw [sanitizeId_eq, removeDoubleQuotes] at hc
  exact (List.mem_filter.mp hc).2

/-- `jsTrim` only keeps characters of its input. -/
theorem mem_jsTrim (s : Str) : ∀ c ∈ jsTrim s, c ∈ s := by
  intro c hc
  rw [jsTrim] at hc
  have h1 := List.mem_reverse.mp hc
  have h2 := (List.dropWhile_sublist _).subset h1
  have h3 := List.mem_reverse.mp h2
  exact (List.dropWhile_sublist _).subset h3

/-! ### Claim C8 -/

/-- C8 counterexample: the raw id `"␣<id>␣"` — a valid id surrounded by
whitespace and quote characters, with the whitespace inside the quotes —
does not sanitize to the id: `trim` runs before quote removal, so the inner
spaces survive. -/
theorem c8_counterexample :
    sanitizeId (Char.ofNat 34 :: Char.ofNat 32 :: pid
        ++ [Char.ofNat 32, Char.ofNat 34])
      ≠ pid ∧
    sanitizeId (Char.ofNat 34 :: Char.ofNat 32 :: pid
        ++ [Char.ofNat 32, Char.ofNat 34])
      = Char.ofNat 32 :: pid ++ [Char.ofNat 32] := by decide

/-- C8 (amended): `sanitizeId` first trims leading and trailing whitespace
and then removes every ASCII double-quote character.  For any raw id built
as whitespace, then double quotes, then a valid 24-hex id, then double
quotes, then whitespace — whitespace outermost — the sanitized result is
the valid id itself. -/
theorem c8_sanitize_strips (ws1 q1 mid q2 ws2 : Str)
    (h1 : ∀ c ∈ ws1, isJsSpace c = true)
    (h2 : ∀ c ∈ ws2, isJsSpace c = true)
    (hq1 : ∀ c ∈ q1, isDq c = true)
    (hq2 : ∀ c ∈ q2, isDq c = true)
    (hv : isValidMongoId mid = true) :
    sanitizeId (ws1 ++ q1 ++ mid ++ q2 ++ ws2) = mid := by
  have hv2 : mid.length = 24 ∧ ∀ c ∈ mid, isHexChar c = true := by
    simpa only [isValidMongoId, Bool.and_eq_true, beq_iff_eq,
      List.all_eq_true] using hv
  obtain ⟨hlen, hall⟩ := hv2
  have hmidne : mid ≠ [] := by
    intro h
    rw [h] at hlen
    simp at hlen
  have hmne : q1 ++ mid ++ q2 ≠ [] := by
    intro h
    simp only [List.append_eq_nil] at h
    exact hmidne h.1.2
  have hmns : ∀ c ∈ q1 ++ mid ++ q2, isJsSpace c = false := by
    intro c hc
    simp only [List.mem_append] at hc
    rcases hc with (hc | hc) | hc
    · exact isDq_not_space (hq1 c hc)
    · exact isHexChar_not_space (hall c hc)
    · exact isDq_not_space (hq2 c hc)
  have harr : ws1 ++ q1 ++ mid ++ q2 ++ ws2
      = ws1 ++ (q1 ++ mid ++ q2) ++ ws2 := by
    simp [List.append_assoc]
  rw [sanitizeId_eq, harr, jsTrim_sandwich _ _ _ h1 h2 hmne hmns,
    removeDoubleQuotes, List.filter_append, List.filter_append]
  have e1 : q1.filter (fun c => !(isDq c)) = [] := by
    apply List.filter_eq_nil_iff.mpr
    intro a ha
    simp [hq1 a ha]
  have e2 : q2.filter (fun c => !(isDq c)) = [] := by
    apply List.filter_eq_nil_iff.mpr
    intro a ha
    simp [hq2 a ha]
  have e3 : mid.filter (fun c => !(isDq c)) = mid := by
    apply List.filter_eq_self.mpr
    intro a ha
    simp [isHexChar_not_dq (hall a ha)]
  rw [e1, e2, e3]
  simp

/-- C8 witness: one space and one quote on each side of a valid id. -/
theorem c8_sanitize_strips_witness :
    sanitizeId ([Char.ofNat 32] ++ [Char.ofNat 34] ++ pid
        ++ [Char.ofNat 34] ++ [Char.ofNat 32]) = pid :=
  c8_sanitize_strips [Char.ofNat 32] [Char.ofNat 34] pid
    [Char.ofNat 34] [Char.ofNat 32]
    (by decide) (by decide) (by decide) (by decide) (by decide)

/-! ### Claim C10 -/

/-- C10 counterexample: on the raw string `"␣a` (quote, space, letter) the
first application of `sanitizeId` yields `␣a`, whose second application
trims the space that quote removal uncovered — `sanitizeId` is not
idempotent. -/
theorem c10_counterexample :
    sanitizeId (sanitizeId [Char.ofNat 34, Char.ofNat 32, Char.ofNat 97])
      ≠ sanitizeId [Char.ofNat 34, Char.ofNat 32, Char.ofNat 97] := by
  decide

/-- C10 (amended): a second application of `sanitizeId` removes no quotes
(none remain after the first) but may trim whitespace that quote removal
uncovered: `sanitizeId (sanitizeId s) = jsTrim (sanitizeId s)` for every
string `s`.  `sanitizeId` is idempotent exactly on inputs whose sanitized
form carries no leading or trailing whitespace. -/
theorem c10_sanitize_twice (s : Str) :
    sanitizeId (sanitizeId s) = jsTrim (sanitizeId s) := by
  rw [sanitizeId_eq (sanitizeId s), removeDoubleQuotes]
  apply List.filter_eq_self.mpr
  intro a ha
  exact mem_sanitizeId_not_dq s a (mem_jsTrim _ a ha)

/-! ### Claim C1 -/

/-- C1 counterexample: a GET of an existing product with no authorization
header at all answers 200 and performs the product lookup, in both route
implementations — the GET handlers never consult the identity. -/
theorem c1_counterexample :
    MongoRoute.GET none [prod1] pid = ⟨200, [prod1], [pid]⟩ ∧
    PrismaRoute.GET none [prod1] pid = ⟨200, [prod1], [pid]⟩ ∧
    (200 : Nat) ≠ 401 := by decide

/-- C1 (amended): for every PUT or DELETE on /products/{id} in which no
authenticated identity can be extracted, both implementations terminate
with 401, leave the store untouched and perform no product lookup.  The
GET handlers perform no identity check at all and serve the product
regardless of the authorization header. -/
theorem c1_put_delete_unauthorized (verify : Str → Option Str)
    (auth : Option Str) (now : Nat) (store : List Product) (rawId : Str)
    (title : Option Str) (price : Option Int)
    (hA : getCurrentUserId verify auth = none) :
    MongoRoute.PUT verify auth now store rawId title price
      = ⟨401, store, []⟩ ∧
    PrismaRoute.PUT verify auth now store rawId title price
      = ⟨401, store, []⟩ ∧
    MongoRoute.DELETE verify auth store rawId = ⟨401, store, []⟩ ∧
    PrismaRoute.DELETE verify auth store rawId = ⟨401, store, []⟩ := by
  refine ⟨?_, ?_, ?_, ?_⟩ <;>
    simp [MongoRoute.PUT, PrismaRoute.PUT, MongoRoute.DELETE,
      PrismaRoute.DELETE, hA]

/-- C1 witness: a concrete unauthenticated PUT and DELETE. -/
theorem c1_put_delete_unauthorized_witness :
    MongoRoute.PUT verify1 none 3 [prod1] pid none none
      = ⟨401, [prod1], []⟩ ∧
    PrismaRoute.PUT verify1 none 3 [prod1] pid none none
      = ⟨401, [prod1], []⟩ ∧
    MongoRoute.DELETE verify1 none [prod1] pid = ⟨401, [prod1], []⟩ ∧
    PrismaRoute.DELETE verify1 none [prod1] pid = ⟨401, [prod1], []⟩ :=
  c1_put_delete_unauthorized verify1 none 3 [prod1] pid none none rfl

/-! ### Claim C3 -/

/-- C3 counterexample: a DELETE with a malformed id and no authorization
header answers 401, not 400 — PUT and DELETE check the bearer identity
before validating the id (no lookup happens either way). -/
theorem c3_counterexample :
    PrismaRoute.DELETE verify1 none [prod1] ([Char.ofNat 122, Char.ofNat 122])
      = ⟨401, [prod1], []⟩ ∧
    (401 : Nat) ≠ 400 := by decide

/-- C3 (amended): for every request to a product-by-id endpoint whose
sanitized id is not 24 hex characters, no store lookup of the product is
ever attempted and the store is untouched; the GET handlers answer 400,
and the PUT/DELETE handlers answer 400 unless the request is first
rejected with 401 because no identity could be extracted (they check the
bearer identity before validating the id). -/
theorem c3_invalid_id_no_lookup (verify : Str → Option Str)
    (auth : Option Str) (now : Nat) (store : List Product) (rawId : Str)
    (title : Option Str) (price : Option Int)
    (hV : isValidMongoId (sanitizeId rawId) = false) :
    MongoRoute.GET auth store rawId = ⟨400, store, []⟩ ∧
    PrismaRoute.GET auth store rawId = ⟨400, store, []⟩ ∧
    ((MongoRoute.PUT verify auth now store rawId title price).lookups = []
      ∧ (MongoRoute.PUT verify auth now store rawId title price).store
          = store
      ∧ ((MongoRoute.PUT verify auth now store rawId title price).status
            = 400 ∨
          (MongoRoute.PUT verify auth now store rawId title price).status
            = 401)
      ∧ ((getCurrentUserId verify auth).isSome = true →
          (MongoRoute.PUT verify auth now store rawId title price).status
            = 400)) ∧
    ((PrismaRoute.PUT verify auth now store rawId title price).lookups = []
      ∧ (PrismaRoute.PUT verify auth now store rawId title price).store
          = store
      ∧ ((PrismaRoute.PUT verify auth now store rawId title price).status
            = 400 ∨
          (PrismaRoute.PUT verify auth now store rawId title price).status
            = 401)
      ∧ ((getCurrentUserId verify auth).isSome = true →
          (PrismaRoute.PUT verify auth now store rawId title price).status
            = 400)) ∧
    ((MongoRoute.DELETE verify auth store rawId).lookups = []
      ∧ (MongoRoute.DELETE verify auth store rawId).store = store
      ∧ ((MongoRoute.DELETE verify auth store rawId).status = 400 ∨
          (MongoRoute.DELETE verify auth store rawId).status = 401)
      ∧ ((getCurrentUserId verify auth).isSome = true →
          (MongoRoute.DELETE verify auth store rawId).status = 400)) ∧
    ((PrismaRoute.DELETE verify auth store rawId).lookups = []
      ∧ (PrismaRoute.DELETE verify auth store rawId).store = store
      ∧ ((PrismaRoute.DELETE verify auth store rawId).status = 400 ∨
          (PrismaRoute.DELETE verify auth store rawId).status = 401)
      ∧ ((getCurrentUserId verify auth).isSome = true →
          (PrismaRoute.DELETE verify auth store rawId).status = 400)) := by
  cases hA : getCurrentUserId verify auth with
  | none =>
    refine ⟨?_, ?_, ?_, ?_, ?_, ?_⟩ <;>
      simp [MongoRoute.GET, PrismaRoute.GET, MongoRoute.PUT,
        PrismaRoute.PUT, MongoRoute.DELETE, PrismaRoute.DELETE, hA, hV]
  | some uid =>
    refine ⟨?_, ?_, ?_, ?_, ?_, ?_⟩ <;>
      simp [MongoRoute.GET, PrismaRoute.GET, MongoRoute.PUT,
        PrismaRoute.PUT, MongoRoute.DELETE, PrismaRoute.DELETE, hA, hV]

/-- C3 witness: a malformed id with a valid identity gives 400 and no
lookup on every endpoint. -/
theorem c3_invalid_id_no_lookup_witness :
    MongoRoute.GET hdr1 [prod1] ([Char.ofNat 122]) = ⟨400, [prod1], []⟩ ∧
    (MongoRoute.PUT verify1 hdr1 3 [prod1] ([Char.ofNat 122]) none none
        ).lookups = [] ∧
    ((getCurrentUserId verify1 hdr1).isSome = true →
      (PrismaRoute.DELETE verify1 hdr1 [prod1] ([Char.ofNat 122])).status
        = 400) := by
  have h := c3_invalid_id_no_lookup verify1 hdr1 3 [prod1]
    ([Char.ofNat 122]) none none (by decide)
  exact ⟨h.1, h.2.2.1.1, h.2.2.2.2.2.2.2.2⟩

/-! ### Claim C2 -/

/-- C2 counterexample: a PUT with valid identity, well-formed id and an
empty body (`{}`) on an existing product owned by someone else answers 400
— the body-presence check runs before the existence and ownership checks,
so the wrong-owner response is not 403 here. -/
theorem c2_counterexample :
    MongoRoute.PUT verify1 hdr1 9 [prod2] pid none none
      = ⟨400, [prod2], []⟩ ∧
    (400 : Nat) ≠ 403 ∧
    findById [prod2] pid = some prod2 ∧
    prod2.author ≠ uid1 := by decide

/-- C2 (amended): for every PUT or DELETE with a valid bearer identity, a
well-formed id and — for PUT — a body supplying at least one of
title/price, the existence check precedes the ownership comparison: if no
product with that id exists the response is 404, and if the product exists
but its stored owner differs from the identity the response is 403, in
both cases with the store untouched. -/
theorem c2_found_before_owned (verify : Str → Option Str)
    (auth : Option Str) (now : Nat) (store : List Product) (rawId : Str)
    (title : Option Str) (price : Option Int) (uid : Str) (p : Product)
    (hA : getCurrentUserId verify auth = some uid)
    (hV : isValidMongoId (sanitizeId rawId) = true) :
    (findById store (sanitizeId rawId) = none →
      MongoRoute.DELETE verify auth store rawId
        = ⟨404, store, [sanitizeId rawId]⟩ ∧
      PrismaRoute.DELETE verify auth store rawId
        = ⟨404, store, [sanitizeId rawId]⟩ ∧
      ((!(truthyStr title) && price.isNone) = false →
        MongoRoute.PUT verify auth now store rawId title price
          = ⟨404, store, [sanitizeId rawId]⟩ ∧
        PrismaRoute.PUT verify auth now store rawId title price
          = ⟨404, store, [sanitizeId rawId]⟩)) ∧
    (findById store (sanitizeId rawId) = some p → p.author ≠ uid →
      MongoRoute.DELETE verify auth store rawId
        = ⟨403, store, [sanitizeId rawId]⟩ ∧
      PrismaRoute.DELETE verify auth store rawId
        = ⟨403, store, [sanitizeId rawId]⟩ ∧
      ((!(truthyStr title) && price.isNone) = false →
        MongoRoute.PUT verify auth now store rawId title price
          = ⟨403, store, [sanitizeId rawId]⟩ ∧
        PrismaRoute.PUT verify auth now store rawId title price
          = ⟨403, store, [sanitizeId rawId]⟩)) := by
  constructor
  · intro hF
    refine ⟨?_, ?_, fun hB => ⟨?_, ?_⟩⟩ <;>
      simp_all [MongoRoute.DELETE, PrismaRoute.DELETE, MongoRoute.PUT,
        PrismaRoute.PUT, Option.isSome_iff_ne_none]
  · intro hF hO
    refine ⟨?_, ?_, fun hB => ⟨?_, ?_⟩⟩ <;>
      simp_all [MongoRoute.DELETE, PrismaRoute.DELETE, MongoRoute.PUT,
        PrismaRoute.PUT, Option.isSome_iff_ne_none]

/-- C2 witness: a concrete wrong-owner DELETE and PUT land on 403 with the
store untouched, and the empty store lands on 404. -/
theorem c2_found_before_owned_witness :
    (MongoRoute.DELETE verify1 hdr1 [prod2] pid = ⟨403, [prod2], [pid]⟩ ∧
      PrismaRoute.DELETE verify1 hdr1 [prod2] pid
        = ⟨403, [prod2], [pid]⟩) ∧
    MongoRoute.PUT verify1 hdr1 9 [prod2] pid none (some 5)
      = ⟨403, [prod2], [pid]⟩ ∧
    MongoRoute.DELETE verify1 hdr1 [] pid = ⟨404, [], [pid]⟩ := by
  have h1 := (c2_found_before_owned verify1 hdr1 9 [prod2] pid none
    (some 5) uid1 prod2 (by decide) (by decide)).2 (by decide) (by decide)
  have h2 := (c2_found_before_owned verify1 hdr1 9 [] pid none
    (some 5) uid1 prod2 (by decide) (by decide)).1 (by decide)
  exact ⟨⟨h1.1, h1.2.1⟩, (h1.2.2 (by decide)).1, h2.1⟩

/-! ### Claim C9 -/

/-- C9 counterexample: on the same successful deletion the mongoose route
answers 200 (with a message body) and the prisma route answers 204 — the
two implementations do not share one canonical success status. -/
theorem c9_counterexample :
    MongoRoute.DELETE verify1 hdr1 [prod1] pid = ⟨200, [], [pid]⟩ ∧
    PrismaRoute.DELETE verify1 hdr1 [prod1] pid = ⟨204, [], [pid]⟩ ∧
    (200 : Nat) ≠ 204 := by decide

/-- C9 (amended): each implementation is internally consistent but they
differ from each other: whenever the mongoose DELETE changes the store its
status is 200, and whenever the prisma DELETE changes the store its status
is 204. -/
theorem c9_delete_success_status (verify : Str → Option Str)
    (auth : Option Str) (store : List Product) (rawId : Str) :
    ((MongoRoute.DELETE verify auth store rawId).store ≠ store →
      (MongoRoute.DELETE verify auth store rawId).status = 200) ∧
    ((PrismaRoute.DELETE verify auth store rawId).store ≠ store →
      (PrismaRoute.DELETE verify auth store rawId).status = 204) := by
  constructor
  · cases hA : getCurrentUserId verify auth with
    | none => intro h; simp [MongoRoute.DELETE, hA] at h
    | some uid =>
      by_cases hV : isValidMongoId (sanitizeId rawId)
      · cases hF : findById store (sanitizeId rawId) with
        | none => intro h; simp [MongoRoute.DELETE, hA, hV, hF] at h
        | some ex =>
          by_cases hO : ex.author = uid
          · intro h; simp [MongoRoute.DELETE, hA, hV, hF, hO]
          · intro h; simp [MongoRoute.DELETE, hA, hV, hF, hO] at h
      · intro h; simp [MongoRoute.DELETE, hA, hV] at h
  · cases hA : getCurrentUserId verify auth with
    | none => intro h; simp [PrismaRoute.DELETE, hA] at h
    | some uid =>
      by_cases hV : isValidMongoId (sanitizeId rawId)
      · cases hF : findById store (sanitizeId rawId) with
        | none => intro h; simp [PrismaRoute.DELETE, hA, hV, hF] at h
        | some ex =>
          by_cases hO : ex.author = uid
          · intro h; simp [PrismaRoute.DELETE, hA, hV, hF, hO]
          · intro h; simp [PrismaRoute.DELETE, hA, hV, hF, hO] at h
      · intro h; simp [PrismaRoute.DELETE, hA, hV] at h

/-- C9 witness: a concrete successful deletion in each implementation. -/
theorem c9_delete_success_status_witness :
    (MongoRoute.DELETE verify1 hdr1 [prod1] pid).status = 200 ∧
    (PrismaRoute.DELETE verify1 hdr1 [prod1] pid).status = 204 :=
  ⟨(c9_delete_success_status verify1 hdr1 [prod1] pid).1 (by decide),
   (c9_delete_success_status verify1 hdr1 [prod1] pid).2 (by decide)⟩

/-! ### Claim C4 -/

theorem findById_mem {store : List Product} {i : Str} {p : Product}
    (h : findById store i = some p) : p ∈ store :=
  List.mem_of_find?_eq_some h

theorem findById_id {store : List Product} {i : Str} {p : Product}
    (h : findById store i = some p) : p.id = i := by
  have hp := List.find?_some h
  simpa [beq_iff_eq] using hp

/-- Replacing the record found under `i` by a record that keeps its id,
author and creation time is a frame-respecting store change. -/
theorem replaceById_frame (store : List Product) (i : Str) (ex p : Product)
    (hF : findById store i = some ex) (hid : p.id = ex.id)
    (hau : p.author = ex.author) (hcr : p.createdAt = ex.createdAt) :
    (replaceById store i p).length = store.length ∧
    (∀ q ∈ replaceById store i p, ∃ q₀ ∈ store,
        q.id = q₀.id ∧ q.author = q₀.author ∧ q.createdAt = q₀.createdAt) ∧
    (∀ q ∈ store, q.id ≠ i → q ∈ replaceById store i p) := by
  refine ⟨List.length_map _ _, ?_, ?_⟩
  · intro q hq
    rcases List.mem_map.mp hq with ⟨q₀, hq₀, hfq⟩
    by_cases hqi : q₀.id = i
    · refine ⟨ex, findById_mem hF, ?_⟩
      rw [← hfq]
      simp [hqi, hid, hau, hcr]
    · refine ⟨q₀, hq₀, ?_⟩
      rw [← hfq]
      simp [hqi]
  · intro q hq hne
    refine List.mem_map.mpr ⟨q, hq, ?_⟩
    simp [hne]

/-- C4 (as claimed): a product update that completes with 200 preserves the
store size, preserves every record's id, owner and creation time (only
title, price, updatedAt can change), and leaves every record other than
the addressed one entirely unchanged — in both implementations. -/
theorem c4_update_frame (verify : Str → Option Str) (auth : Option Str)
    (now : Nat) (store : List Product) (rawId : Str) (title : Option Str)
    (price : Option Int) :
    ((MongoRoute.PUT verify auth now store rawId title price).status = 200 →
      (MongoRoute.PUT verify auth now store rawId title price).store.length
          = store.length ∧
      (∀ q ∈ (MongoRoute.PUT verify auth now store rawId title price).store,
        ∃ q₀ ∈ store, q.id = q₀.id ∧ q.author = q₀.author ∧
          q.createdAt = q₀.createdAt) ∧
      (∀ q ∈ store, q.id ≠ sanitizeId rawId →
        q ∈ (MongoRoute.PUT verify auth now store rawId title price).store))
    ∧
    ((PrismaRoute.PUT verify auth now store rawId title price).status = 200 →
      (PrismaRoute.PUT verify auth now store rawId title price).store.length
          = store.length ∧
      (∀ q ∈ (PrismaRoute.PUT verify auth now store rawId title price).store,
        ∃ q₀ ∈ store, q.id = q₀.id ∧ q.author = q₀.author ∧
          q.createdAt = q₀.createdAt) ∧
      (∀ q ∈ store, q.id ≠ sanitizeId rawId →
        q ∈ (PrismaRoute.PUT verify auth now store rawId title price).store))
    := by
  constructor
  · intro h
    cases hA : getCurrentUserId verify auth with
    | none => simp [MongoRoute.PUT, hA] at h
    | some uid =>
      by_cases hV : isValidMongoId (sanitizeId rawId)
      · by_cases hB : (!(truthyStr title) && price.isNone) = true
        · simp [MongoRoute.PUT, hA, hV, hB] at h
        · cases hF : findById store (sanitizeId rawId) with
          | none => simp [MongoRoute.PUT, hA, hV, hB, hF] at h
          | some ex =>
            by_cases hO : ex.author = uid
            · have hr : MongoRoute.PUT verify auth now store rawId title
                  price = ⟨200, replaceById store (sanitizeId rawId)
                    { ex with
                      title := match title with
                        | some t => if !t.isEmpty then jsTrim t else ex.title
                        | none => ex.title
                      price := match price with
                        | some v => v
                        | none => ex.price
                      updatedAt := now },
                  [sanitizeId rawId, sanitizeId rawId]⟩ := by
                cases title <;> cases price <;>
                  (try simp [truthyStr] at hB) <;>
                  simp_all [MongoRoute.PUT, hA, hV, hF, hO, truthyStr]
              rw [hr]
              exact replaceById_frame store (sanitizeId rawId) ex _ hF
                rfl rfl rfl
            · simp [MongoRoute.PUT, hA, hV, hB, hF, hO] at h
      · simp [MongoRoute.PUT, hA, hV] at h
  · intro h
    cases hA : getCurrentUserId verify auth with
    | none => simp [PrismaRoute.PUT, hA] at h
    | some uid =>
      by_cases hV : isValidMongoId (sanitizeId rawId)
      · by_cases hB : (!(truthyStr title) && price.isNone) = true
        · simp [PrismaRoute.PUT, hA, hV, hB] at h
        · cases hF : findById store (sanitizeId rawId) with
          | none => simp [PrismaRoute.PUT, hA, hV, hB, hF] at h
          | some ex =>
            by_cases hO : ex.author = uid
            · have hr : PrismaRoute.PUT verify auth now store rawId title
                  price = ⟨200, replaceById store (sanitizeId rawId)
                    { ex with
                      title := match title with
                        | some t => jsTrim t
                        | none => ex.title
                      price := match price with
                        | some v => v
                        | none => ex.price
                      updatedAt := now },
                  [sanitizeId rawId]⟩ := by
                cases title <;> cases price <;>
                  (try simp [truthyStr] at hB) <;>
                  simp_all [PrismaRoute.PUT, hA, hV, hF, hO, truthyStr]
              rw [hr]
              exact replaceById_frame store (sanitizeId rawId) ex _ hF
                rfl rfl rfl
            · simp [PrismaRoute.PUT, hA, hV, hB, hF, hO] at h
      · simp [PrismaRoute.PUT, hA, hV] at h

/-- C4 witness: a concrete successful owner update of title and price. -/
theorem c4_update_frame_witness :
    (MongoRoute.PUT verify1 hdr1 9 [prod1] pid (some (("N").toList))
        (some 42)).status = 200 ∧
    (MongoRoute.PUT verify1 hdr1 9 [prod1] pid (some (("N").toList))
        (some 42)).store.length = ([prod1] : List Product).length ∧
    (∀ q ∈ (MongoRoute.PUT verify1 hdr1 9 [prod1] pid
        (some (("N").toList)) (some 42)).store,
      ∃ q₀ ∈ [prod1], q.id = q₀.id ∧ q.author = q₀.author ∧
        q.createdAt = q₀.createdAt) := by
  have h := (c4_update_frame verify1 hdr1 9 [prod1] pid
    (some (("N").toList)) (some 42)).1 (by decide)
  exact ⟨by decide, h.1, h.2.1⟩

/-! ### Claim C5 -/

/-- A concrete bcrypt oracle for the registration scenario. -/
def hash0 : Str → Str := fun s => s

/-- A concrete token-signing oracle for the registration scenario. -/
def sign0 : Str → Str := fun s => s

/-- C5: a registration with all three fields present and a fresh email
creates the user and answers with id, fullname, email and token — but the
success response is built by `NextResponse.json` without a `status`
option, so its status is the default 200, not the documented 201. -/
theorem c5_register_default_status :
    register hash0 sign0 uid1 []
        (some (("A").toList)) (some (("a@x.com").toList))
        (some (("p").toList))
      = ⟨200, [⟨uid1, ("A").toList, ("a@x.com").toList, ("p").toList⟩],
          some ⟨uid1, ("A").toList, ("a@x.com").toList, uid1⟩⟩ ∧
    (200 : Nat) ≠ 201 := by decide

/-! ### Claim C6 -/

/-- C6: verifying a token produced by signing a user id, within its 7-day
validity window and under the same secret, recovers exactly that id. -/
theorem c6_token_roundtrip (key t0 now : Nat) (uid : Str)
    (h : now < t0 + sevenDays) :
    verifyToken key now (signToken key t0 uid) = some uid := by
  simp [verifyToken, signToken, h]

/-- C6 witness: a concrete token verified two seconds after signing. -/
theorem c6_token_roundtrip_witness :
    verifyToken 7 3 (signToken 7 1 uid1) = some uid1 :=
  c6_token_roundtrip 7 1 3 uid1 (by decide)

/-! ### Claim C7 -/

/-- C7 counterexample: an authenticated create with price `-5` succeeds
with 201 and stores the negative price — no sign check exists. -/
theorem c7_counterexample :
    productsCreate verify1 hdr1 9 pid [] (some (("M").toList)) (some (-5))
      = ⟨201, [⟨pid, ("M").toList, -5, uid1, 9, 9⟩]⟩ ∧
    ((-5 : Int) < 0) := by decide

/-- C7 (amended): neither create nor update performs any sign check on the
price: a successful create stores exactly the supplied numeric price, and
a successful owner update that supplies a price replaces the stored price
with exactly the supplied numeric value — negative values included. -/
theorem c7_price_stored_verbatim (verify : Str → Option Str)
    (auth : Option Str) (now : Nat) (newId : Str) (store : List Product)
    (rawId : Str) (t : Str) (v : Int) (uid : Str) (p : Product)
    (hA : getCurrentUserId verify auth = some uid)
    (ht : (!t.isEmpty) = true) :
    productsCreate verify auth now newId store (some t) (some v)
      = ⟨201, store ++ [⟨newId, t, v, uid, now, now⟩]⟩ ∧
    (isValidMongoId (sanitizeId rawId) = true →
      findById store (sanitizeId rawId) = some p →
      p.author = uid →
      MongoRoute.PUT verify auth now store rawId none (some v)
        = ⟨200, replaceById store (sanitizeId rawId)
            { p with price := v, updatedAt := now },
          [sanitizeId rawId, sanitizeId rawId]⟩) := by
  constructor
  · simp [productsCreate, hA, truthyStr, ht]
  · intro hV hF hO
    simp [MongoRoute.PUT, hA, hV, hF, hO, truthyStr]

/-- C7 witness: a concrete create and a concrete owner update, both with a
negative price, succeed and store it. -/
theorem c7_price_stored_verbatim_witness :
    productsCreate verify1 hdr1 9 uid2 [prod1] (some (("N").toList))
        (some (-7))
      = ⟨201, [prod1] ++ [⟨uid2, ("N").toList, -7, uid1, 9, 9⟩]⟩ ∧
    MongoRoute.PUT verify1 hdr1 9 [prod1] pid none (some (-7))
      = ⟨200, replaceById [prod1] (sanitizeId pid)
          { prod1 with price := -7, updatedAt := 9 },
        [sanitizeId pid, sanitizeId pid]⟩ := by
  have h := c7_price_stored_verbatim verify1 hdr1 9 uid2 [prod1] pid
    (("N").toList) (-7) uid1 prod1 (by decide) (by decide)
  exact ⟨h.1, h.2 (by decide) (by decide) (by decide)⟩

end Xyfora
